import Mathlib

/-!
Verification of the OMDG convection-diffusion-reaction matrix generator
(`PDEs/ConvectionDiffusionReactionFEMwithDirichletBC2d.py`).

The Python module is embedded shallowly:
* real-valued coordinate arithmetic is carried out exactly over `ℚ`
  (the claims under study are about index computations and thresholds,
  which are exact), except for the trigonometric manufactured-solution
  formulas, which live over `ℝ`;
* numpy fancy indexing with integer indices (negative indices wrap to the
  end of the axis, indices outside `[-n, n-1]` raise `IndexError`) is
  modelled by `npGet` returning `Option`;
* the process-wide random generators (`numpy.random` and `random`) are
  modelled as explicit states threaded through the computation; a linear
  congruential step stands in for the Mersenne twister — only determinism
  of the draws given the state matters for the claims below;
* the external FEM library (mesh construction, space construction,
  stiffness/convection/mass/source assembly, Dirichlet elimination) is an
  external collaborator of the repository; it is abstracted as an
  arbitrary deterministic `assemble` function supplied to `GenerateMat`.
-/

namespace OMDG

/-- numpy integer indexing into one axis: a negative index wraps to the end
of the axis (`a[-1]` is the last entry), an index outside `[-n, n-1]`
raises `IndexError`, modelled as `none`. -/
def npGet {α : Type} (l : List α) (i : ℤ) : Option α :=
  if 0 ≤ i then l[i.toNat]?
  else if (-i).toNat ≤ l.length then l[l.length - (-i).toNat]?
  else none

/-- numpy integer indexing into a 2-d array (row index first). -/
def npGet2 {α : Type} (m : List (List α)) (i j : ℤ) : Option α :=
  (npGet m i).bind fun row => npGet row j

/-- A 2×2 tensor value, as produced per point by `diffusion_coefficient`
(`val[...,0,0]`, `val[...,0,1]`, `val[...,1,0]`, `val[...,1,1]`). -/
structure Mat2 where
  a00 : ℚ
  a01 : ℚ
  a10 : ℚ
  a11 : ℚ
deriving DecidableEq, Repr

/-- The `PDE` class: domain bounds, block steps and the two sampled
coefficient fields (lists of rows, shape `(blocky+1) × (blockx+1)`). -/
structure PDE where
  x0 : ℚ
  x1 : ℚ
  y0 : ℚ
  y1 : ℚ
  xstep : ℚ
  ystep : ℚ
  coef1 : List (List ℚ)
  coef2 : List (List ℚ)
deriving DecidableEq, Repr

/-- `PDE.__init__(x0,x1,y0,y1,blockx,blocky)`: steps are
`(x1-x0)/blockx` and `(y1-y0)/blocky`; `coef1`/`coef2` are arrays of shape
`(blocky+1, blockx+1)` whose entries come from the numpy draw
`10**np.random.uniform(0.0,5.0,...)`, abstracted here as arbitrary entry
functions `rand1 rand2 : row → column → value`. -/
def PDE.init (x0 x1 y0 y1 : ℚ) (blockx blocky : ℕ)
    (rand1 rand2 : ℕ → ℕ → ℚ) : PDE :=
  { x0 := x0, x1 := x1, y0 := y0, y1 := y1
  , xstep := (x1 - x0) / (blockx : ℚ)
  , ystep := (y1 - y0) / (blocky : ℚ)
  , coef1 := (List.range (blocky + 1)).map fun j =>
      (List.range (blockx + 1)).map fun i => rand1 j i
  , coef2 := (List.range (blocky + 1)).map fun j =>
      (List.range (blockx + 1)).map fun i => rand2 j i }

/-- `PDE.diffusion_coefficient(p)` at a single point `(x, y)`:
`xidx = x // xstep`, `yidx = y // ystep` (Python floor division, then cast
to int), and the diagonal entries are read as `coef1[xidx, yidx]` and
`coef2[xidx, yidx]` — note the row index comes from `x` and no `x0`/`y0`
offset is subtracted, exactly as in the source. `none` models the
`IndexError` numpy raises when an index falls outside the wrap range. -/
def PDE.diffusion_coefficient (pde : PDE) (x y : ℚ) : Option Mat2 :=
  let xidx : ℤ := ⌊x / pde.xstep⌋
  let yidx : ℤ := ⌊y / pde.ystep⌋
  match npGet2 pde.coef1 xidx yidx, npGet2 pde.coef2 xidx yidx with
  | some c1, some c2 => some ⟨c1, 0, 0, c2⟩
  | _, _ => none

/-! ### Indexing lemmas for the coefficient lookup -/

lemma npGet_map_range {α : Type} (f : ℕ → α) (n : ℕ) (i : ℤ)
    (h0 : 0 ≤ i) (hn : i.toNat < n) :
    npGet ((List.range n).map f) i = some (f i.toNat) := by
  unfold npGet
  rw [if_pos h0, List.getElem?_map, List.getElem?_range hn]
  rfl

lemma npGet_map_range_neg {α : Type} (f : ℕ → α) (n : ℕ) (i : ℤ)
    (h0 : i < 0) (hn : (-i).toNat ≤ n) :
    npGet ((List.range n).map f) i = some (f (n - (-i).toNat)) := by
  unfold npGet
  rw [if_neg (by omega)]
  simp only [List.length_map, List.length_range]
  rw [if_pos hn, List.getElem?_map, List.getElem?_range (by omega)]
  rfl

lemma floor_idx_nonneg {x step : ℚ} (hx : 0 ≤ x) (hs : 0 < step) :
    0 ≤ ⌊x / step⌋ :=
  Int.floor_nonneg.mpr (div_nonneg hx hs.le)

lemma floor_idx_lt {x xmax : ℚ} {b : ℕ} (hb : 0 < b) (hmax : 0 < xmax)
    (hx : x < xmax) : ⌊x / (xmax / (b : ℚ))⌋ < (b : ℤ) := by
  have hbq : (0:ℚ) < (b:ℚ) := by exact_mod_cast hb
  have hs : (0:ℚ) < xmax / b := div_pos hmax hbq
  rw [Int.floor_lt]
  push_cast
  rw [div_lt_iff₀ hs]
  calc x < xmax := hx
    _ = (b:ℚ) * (xmax / b) := by field_simp

lemma floor_idx_le {x xmax : ℚ} {b : ℕ} (hb : 0 < b) (hmax : 0 < xmax)
    (hx : x ≤ xmax) : ⌊x / (xmax / (b : ℚ))⌋ ≤ (b : ℤ) := by
  have hbq : (0:ℚ) < (b:ℚ) := by exact_mod_cast hb
  have hs : (0:ℚ) < xmax / b := div_pos hmax hbq
  have h1 : x / (xmax / (b:ℚ)) ≤ (b:ℚ) := by
    rw [div_le_iff₀ hs]
    calc x ≤ xmax := hx
      _ = (b:ℚ) * (xmax / b) := by field_simp
  calc ⌊x / (xmax / (b:ℚ))⌋ ≤ ⌊((b:ℕ):ℚ)⌋ := Int.floor_le_floor h1
    _ = (b:ℤ) := Int.floor_natCast b

/-- Evaluation of `diffusion_coefficient` once the two integer cell
indices and the two array lookups are known. -/
lemma diffusion_coefficient_eval (pde : PDE) (x y : ℚ) (i j : ℤ) (c1 c2 : ℚ)
    (hi : ⌊x / pde.xstep⌋ = i) (hj : ⌊y / pde.ystep⌋ = j)
    (h1 : npGet2 pde.coef1 i j = some c1) (h2 : npGet2 pde.coef2 i j = some c2) :
    pde.diffusion_coefficient x y = some ⟨c1, 0, 0, c2⟩ := by
  rw [PDE.diffusion_coefficient]
  show (match npGet2 pde.coef1 ⌊x / pde.xstep⌋ ⌊y / pde.ystep⌋,
              npGet2 pde.coef2 ⌊x / pde.xstep⌋ ⌊y / pde.ystep⌋ with
        | some c1, some c2 => some (⟨c1, 0, 0, c2⟩ : Mat2)
        | _, _ => none) = _
  rw [hi, hj, h1, h2]

/-- `diffusion_coefficient` with its two cell indices rewritten to given
integer values. -/
lemma diffusion_coefficient_eq_match (pde : PDE) (x y : ℚ) (i j : ℤ)
    (hi : ⌊x / pde.xstep⌋ = i) (hj : ⌊y / pde.ystep⌋ = j) :
    pde.diffusion_coefficient x y =
      (match npGet2 pde.coef1 i j, npGet2 pde.coef2 i j with
       | some c1, some c2 => some (⟨c1, 0, 0, c2⟩ : Mat2)
       | _, _ => none) := by
  rw [PDE.diffusion_coefficient]
  show (match npGet2 pde.coef1 ⌊x / pde.xstep⌋ ⌊y / pde.ystep⌋,
              npGet2 pde.coef2 ⌊x / pde.xstep⌋ ⌊y / pde.ystep⌋ with
        | some c1, some c2 => some (⟨c1, 0, 0, c2⟩ : Mat2)
        | _, _ => none) = _
  rw [hi, hj]

/-- Lookup into a coefficient array as built by `PDE.init`, for a
non-negative row index `i < blocky+1` and column index `j < blockx+1`. -/
lemma npGet2_init_field {blockx blocky : ℕ} (r : ℕ → ℕ → ℚ) (i j : ℤ)
    (hi0 : 0 ≤ i) (hi : i.toNat < blocky + 1) (hj0 : 0 ≤ j) (hj : j.toNat < blockx + 1) :
    npGet2 ((List.range (blocky + 1)).map fun a =>
        (List.range (blockx + 1)).map fun c => r a c) i j = some (r i.toNat j.toNat) := by
  rw [npGet2, npGet_map_range _ _ _ hi0 hi, Option.some_bind,
      npGet_map_range _ _ _ hj0 hj]

/-! ### Concrete instances used to test the lookup claims -/

/-- Asymmetric concrete coefficient field: row `j`, column `i` ↦ `10*j + i`. -/
def fieldA (j i : ℕ) : ℚ := ((10 * j + i : ℕ) : ℚ)

/-- Second concrete coefficient field: row `j`, column `i` ↦ `100 + 10*j + i`. -/
def fieldB (j i : ℕ) : ℚ := ((100 + 10 * j + i : ℕ) : ℚ)

/-- `PDE(0,1,0,1,2,2)` over the unit square with a square 2×2 block grid. -/
def pdeUnit2 : PDE := PDE.init 0 1 0 1 2 2 fieldA fieldB

/-- `PDE(0,1,0,1,2,1)`: a non-square block grid (`blockx = 2`, `blocky = 1`),
so the coefficient arrays have shape `(2, 3)`. -/
def pdeRect : PDE := PDE.init 0 1 0 1 2 1 fieldA fieldB

/-- Claim C1 fails as stated: at the strictly interior point
`(3/5, 1/10)` of `pdeUnit2` (so `i = ⌊(x-x0)/xstep⌋ = 1`,
`j = ⌊(y-y0)/ystep⌋ = 0`), the `[0,0]` entry returned by
`diffusion_coefficient` is `coef1[1,0] = 10`, not the claimed
`coef1[j,i] = coef1[0,1] = 1`: the code uses the row index computed from
`x`, not from `y`. -/
theorem diffusion_lookup_index_counterexample :
    (pdeUnit2.diffusion_coefficient (3/5) (1/10)).map Mat2.a00 ≠
      npGet2 pdeUnit2.coef1 ⌊((1:ℚ)/10 - pdeUnit2.y0) / pdeUnit2.ystep⌋
        ⌊((3:ℚ)/5 - pdeUnit2.x0) / pdeUnit2.xstep⌋ := by
  rw [pdeUnit2, PDE.init, PDE.diffusion_coefficient]
  norm_num [npGet2, npGet, List.range_succ, fieldA, fieldB]

/-- Claim C1 (amended): for a PDE instance over `[0,x1]×[0,y1]` (origin at
zero, as in `GenerateMat`) with a square block grid `blockx = blocky = b`,
at every strictly interior point `diffusion_coefficient` returns the
diagonal tensor whose `[0,0]` entry is `coef1[i,j]` and whose `[1,1]`
entry is `coef2[i,j]`, where the ROW index `i = ⌊x/xstep⌋` is computed
from `x` and the COLUMN index `j = ⌊y/ystep⌋` from `y` (transposed
relative to the claim), with no origin shift. -/
theorem diffusion_lookup_interior (x1 y1 : ℚ) (b : ℕ) (r1 r2 : ℕ → ℕ → ℚ)
    (hx1 : 0 < x1) (hy1 : 0 < y1) (hb : 0 < b) (x y : ℚ)
    (hx0 : 0 < x) (hxx : x < x1) (hy0 : 0 < y) (hyy : y < y1) :
    (PDE.init 0 x1 0 y1 b b r1 r2).diffusion_coefficient x y =
      some ⟨r1 (⌊x / (x1 / (b:ℚ))⌋).toNat (⌊y / (y1 / (b:ℚ))⌋).toNat, 0, 0,
            r2 (⌊x / (x1 / (b:ℚ))⌋).toNat (⌊y / (y1 / (b:ℚ))⌋).toNat⟩ := by
  have hbq : (0:ℚ) < (b:ℚ) := by exact_mod_cast hb
  have hxs : (PDE.init 0 x1 0 y1 b b r1 r2).xstep = x1 / (b:ℚ) := by
    simp [PDE.init]
  have hys : (PDE.init 0 x1 0 y1 b b r1 r2).ystep = y1 / (b:ℚ) := by
    simp [PDE.init]
  have hx0' := floor_idx_nonneg hx0.le (div_pos hx1 hbq)
  have hy0' := floor_idx_nonneg hy0.le (div_pos hy1 hbq)
  have hxlt := floor_idx_lt hb hx1 hxx
  have hylt := floor_idx_lt hb hy1 hyy
  exact diffusion_coefficient_eval _ x y _ _ _ _
    (by rw [hxs]) (by rw [hys])
    (npGet2_init_field r1 _ _ hx0' (by omega) hy0' (by omega))
    (npGet2_init_field r2 _ _ hx0' (by omega) hy0' (by omega))

/-- Witness for C1 (amended) at `pdeUnit2` and the interior point
`(3/5, 1/10)`: the returned diagonal is `(coef1[1,0], coef2[1,0]) =
(10, 110)`. -/
theorem diffusion_lookup_interior_witness :
    pdeUnit2.diffusion_coefficient (3/5) (1/10) = some ⟨10, 0, 0, 110⟩ := by
  have h := diffusion_lookup_interior 1 1 2 fieldA fieldB
    (by norm_num) (by norm_num) (by norm_num) (3/5) (1/10)
    (by norm_num) (by norm_num) (by norm_num) (by norm_num)
  rw [pdeUnit2, h]
  norm_num [fieldA, fieldB]

/-- Claim C5 fails as stated: for the instance `pdeRect` (with
`blockx = 2 ≠ 1 = blocky`, coefficient arrays of shape `(2,3)`), the
boundary point `(x1, y0) = (1, 0)` yields row index
`⌊1/(1/2)⌋ = 2 ≥ 2`, outside the arrays: the lookup faults
(`none` models numpy's `IndexError`). -/
theorem diffusion_boundary_counterexample :
    pdeRect.diffusion_coefficient 1 0 = none := by
  have hxi : ⌊(1:ℚ) / pdeRect.xstep⌋ = 2 := by
    norm_num [pdeRect, PDE.init]
  have hyi : ⌊(0:ℚ) / pdeRect.ystep⌋ = 0 := by
    norm_num [pdeRect, PDE.init]
  rw [diffusion_coefficient_eq_match pdeRect 1 0 2 0 hxi hyi]
  rfl

/-- Claim C5 (amended): for a PDE instance over `[0,x1]×[0,y1]` with a
SQUARE block grid `blockx = blocky = b` (which is how every call site
builds it: `Para.AddParas` copies `blockx` into `blocky`), the lookup
stays within the bounds of `coef1`/`coef2` for every point of the closed
domain, including the maximum boundary `x = x1` or `y = y1`. -/
theorem diffusion_lookup_closed_domain_safe (x1 y1 : ℚ) (b : ℕ)
    (r1 r2 : ℕ → ℕ → ℚ) (hx1 : 0 < x1) (hy1 : 0 < y1) (hb : 0 < b) (x y : ℚ)
    (hx0 : 0 ≤ x) (hxx : x ≤ x1) (hy0 : 0 ≤ y) (hyy : y ≤ y1) :
    ((PDE.init 0 x1 0 y1 b b r1 r2).diffusion_coefficient x y).isSome = true := by
  have hbq : (0:ℚ) < (b:ℚ) := by exact_mod_cast hb
  have hxs : (PDE.init 0 x1 0 y1 b b r1 r2).xstep = x1 / (b:ℚ) := by
    simp [PDE.init]
  have hys : (PDE.init 0 x1 0 y1 b b r1 r2).ystep = y1 / (b:ℚ) := by
    simp [PDE.init]
  have hx0' := floor_idx_nonneg hx0 (div_pos hx1 hbq)
  have hy0' := floor_idx_nonneg hy0 (div_pos hy1 hbq)
  have hxle := floor_idx_le hb hx1 hxx
  have hyle := floor_idx_le hb hy1 hyy
  rw [diffusion_coefficient_eval _ x y _ _ _ _
    (by rw [hxs]) (by rw [hys])
    (npGet2_init_field r1 _ _ hx0' (by omega) hy0' (by omega))
    (npGet2_init_field r2 _ _ hx0' (by omega) hy0' (by omega))]
  rfl

/-- Witness for C5 (amended) at `pdeUnit2` and the extreme corner
`(x1, y1) = (1, 1)` of the closed domain. -/
theorem diffusion_lookup_closed_domain_safe_witness :
    (pdeUnit2.diffusion_coefficient 1 1).isSome = true := by
  rw [pdeUnit2]
  exact diffusion_lookup_closed_domain_safe 1 1 2 fieldA fieldB
    (by norm_num) (by norm_num) (by norm_num) 1 1
    (by norm_num) (by norm_num) (by norm_num) (by norm_num)

/-- Claim C10: for a PDE instance over `[0,x1]×[0,y1]` with square block
grid `b = blockx = blocky ≥ 1`, the point `x = -xstep/2` lies outside the
domain (negative, of magnitude less than the grid extent
`blockx*xstep`), yet `diffusion_coefficient` does not fault: the cell
index `⌊x/xstep⌋ = -1` is negative, numpy indexing wraps it to the last
row `b`, and the function silently returns the far-side entries
`coef1[b,0]`, `coef2[b,0]`. -/
theorem diffusion_negative_index_wraps (x1 y1 : ℚ) (b : ℕ)
    (r1 r2 : ℕ → ℕ → ℚ) (hx1 : 0 < x1) (hy1 : 0 < y1) (hb : 0 < b) :
    (-((PDE.init 0 x1 0 y1 b b r1 r2).xstep / 2) < 0 ∧
      -((b:ℚ) * (PDE.init 0 x1 0 y1 b b r1 r2).xstep) <
        -((PDE.init 0 x1 0 y1 b b r1 r2).xstep / 2)) ∧
    (PDE.init 0 x1 0 y1 b b r1 r2).diffusion_coefficient
        (-((PDE.init 0 x1 0 y1 b b r1 r2).xstep / 2))
        ((PDE.init 0 x1 0 y1 b b r1 r2).ystep / 2) =
      some ⟨r1 b 0, 0, 0, r2 b 0⟩ := by
  have hbq : (0:ℚ) < (b:ℚ) := by exact_mod_cast hb
  have hb1 : (1:ℚ) ≤ (b:ℚ) := by exact_mod_cast hb
  have hxs : (PDE.init 0 x1 0 y1 b b r1 r2).xstep = x1 / (b:ℚ) := by
    simp [PDE.init]
  have hys : (PDE.init 0 x1 0 y1 b b r1 r2).ystep = y1 / (b:ℚ) := by
    simp [PDE.init]
  have hsx : (0:ℚ) < x1 / (b:ℚ) := div_pos hx1 hbq
  have hsy : (0:ℚ) < y1 / (b:ℚ) := div_pos hy1 hbq
  constructor
  · constructor
    · rw [hxs]; linarith
    · rw [hxs]; nlinarith
  · have hi : ⌊(-((PDE.init 0 x1 0 y1 b b r1 r2).xstep / 2)) /
        (PDE.init 0 x1 0 y1 b b r1 r2).xstep⌋ = -1 := by
      rw [hxs]
      have : (-(x1 / (b:ℚ) / 2)) / (x1 / (b:ℚ)) = -(1/2) := by
        field_simp
        ring
      rw [this]
      norm_num
    have hj : ⌊((PDE.init 0 x1 0 y1 b b r1 r2).ystep / 2) /
        (PDE.init 0 x1 0 y1 b b r1 r2).ystep⌋ = 0 := by
      rw [hys]
      have : (y1 / (b:ℚ) / 2) / (y1 / (b:ℚ)) = 1/2 := by
        field_simp
        ring
      rw [this]
      norm_num
    have hrow : ∀ r : ℕ → ℕ → ℚ,
        npGet2 ((List.range (b + 1)).map fun a =>
          (List.range (b + 1)).map fun c => r a c) (-1) 0 = some (r b 0) := by
      intro r
      rw [npGet2, npGet_map_range_neg _ _ _ (by omega) (by omega),
        Option.some_bind, npGet_map_range _ _ _ (by omega) (by omega)]
      norm_num
    exact diffusion_coefficient_eval _ _ _ (-1) 0 _ _ hi hj (hrow r1) (hrow r2)

/-- Witness for C10 at `b = 1` over the unit square: the point `-1/2`
wraps to the last row and returns `coef1[1,0] = 10`, `coef2[1,0] = 110`. -/
theorem diffusion_negative_index_wraps_witness :
    (PDE.init 0 1 0 1 1 1 fieldA fieldB).diffusion_coefficient
        (-(1/2)) (1/2) = some ⟨10, 0, 0, 110⟩ := by
  have h := (diffusion_negative_index_wraps 1 1 1 fieldA fieldB
    (by norm_num) (by norm_num) (by norm_num)).2
  have hx : -((PDE.init 0 1 0 1 1 1 fieldA fieldB).xstep / 2) = (-(1/2) : ℚ) := by
    norm_num [PDE.init]
  have hy : (PDE.init 0 1 0 1 1 1 fieldA fieldB).ystep / 2 = ((1:ℚ)/2) := by
    norm_num [PDE.init]
  rw [hx, hy] at h
  rw [h]
  norm_num [fieldA, fieldB]

/-! ### The manufactured solution and its source term (over `ℝ`) -/

/-- `PDE.solution(p)`: the exact solution `cos(πx)·cos(πy)`. -/
noncomputable def solution (x y : ℝ) : ℝ :=
  Real.cos (Real.pi * x) * Real.cos (Real.pi * y)

/-- `PDE.source(p)`, accumulated exactly as in the code:
`val = 12π²cos(πx)cos(πy); val += 2π²sin(πx)sin(πy);
val += cos(πx)cos(πy)(x²+y²+1); val -= π·cos(πx)sin(πy);
val -= π·cos(πy)sin(πx)`. -/
noncomputable def source (x y : ℝ) : ℝ :=
  12 * Real.pi * Real.pi * Real.cos (Real.pi * x) * Real.cos (Real.pi * y)
    + 2 * Real.pi * Real.pi * Real.sin (Real.pi * x) * Real.sin (Real.pi * y)
    + Real.cos (Real.pi * x) * Real.cos (Real.pi * y) * (x ^ 2 + y ^ 2 + 1)
    - Real.pi * Real.cos (Real.pi * x) * Real.sin (Real.pi * y)
    - Real.pi * Real.cos (Real.pi * y) * Real.sin (Real.pi * x)

/-- `PDE.gradient(p)`: `(-π·sin(πx)cos(πy), -π·cos(πx)sin(πy))`. -/
noncomputable def gradient (x y : ℝ) : ℝ × ℝ :=
  (-Real.pi * Real.sin (Real.pi * x) * Real.cos (Real.pi * y),
   -Real.pi * Real.cos (Real.pi * x) * Real.sin (Real.pi * y))

/-- `PDE.convection_coefficient(p)`: the constant vector `(-1, -1)`. -/
def convection_coefficient : ℝ × ℝ := (-1, -1)

/-- `PDE.reaction_coefficient(p)`: `1 + x² + y²`. -/
noncomputable def reaction_coefficient (x y : ℝ) : ℝ := 1 + x ^ 2 + y ^ 2

/-- The literal right-hand-side formula exactly as the spec writes it:
`f = 12π²cos(πx)cos(πy) + 2π²sin(πx)sin(πy) + cos(πx)cos(πy)(x²+y²+1)
− π cos(πx)sin(πy) − π cos(πy)sin(πx)`. -/
noncomputable def sourceSpec (x y : ℝ) : ℝ :=
  12 * Real.pi ^ 2 * Real.cos (Real.pi * x) * Real.cos (Real.pi * y)
    + 2 * Real.pi ^ 2 * Real.sin (Real.pi * x) * Real.sin (Real.pi * y)
    + Real.cos (Real.pi * x) * Real.cos (Real.pi * y) * (x ^ 2 + y ^ 2 + 1)
    - Real.pi * Real.cos (Real.pi * x) * Real.sin (Real.pi * y)
    - Real.pi * Real.cos (Real.pi * y) * Real.sin (Real.pi * x)

/-- Claim C6: for every point `p = (x,y)`, `source(p)` equals the literal
formula of the spec. -/
theorem source_literal_formula (x y : ℝ) : source x y = sourceSpec x y := by
  unfold source sourceSpec
  ring

/-- Claim C2: the manufactured-solution identity FAILS at the point
`p = (1/4, 1/4)`. There, `source(p)` minus the diffusion terms
`12π²cos(πx)cos(πy) + 2π²sin(πx)sin(πy)` equals `9/16 − π`, while
`convection_coefficient(p)·gradient(p) + reaction_coefficient(p)·solution(p)`
equals `9/16 + π`; the difference is `−2π ≠ 0`. The code's `source`
SUBTRACTS the convection contribution `π cos(πx)sin(πy) + π cos(πy)sin(πx)`
where consistency with `b = (−1,−1)` and `∇u = gradient` requires ADDING
it: the source term carries the wrong sign on the convection part. -/
theorem source_identity_fails :
    source (1/4) (1/4)
        - (12 * Real.pi ^ 2 * Real.cos (Real.pi * (1/4)) * Real.cos (Real.pi * (1/4))
           + 2 * Real.pi ^ 2 * Real.sin (Real.pi * (1/4)) * Real.sin (Real.pi * (1/4))) ≠
      convection_coefficient.1 * (gradient (1/4) (1/4)).1
        + convection_coefficient.2 * (gradient (1/4) (1/4)).2
        + reaction_coefficient (1/4) (1/4) * solution (1/4) (1/4) := by
  have h4 : Real.pi * (1/4 : ℝ) = Real.pi / 4 := by ring
  unfold source gradient convection_coefficient reaction_coefficient solution
  rw [h4, Real.cos_pi_div_four, Real.sin_pi_div_four]
  have h2 : Real.sqrt 2 * Real.sqrt 2 = 2 := Real.mul_self_sqrt (by norm_num)
  intro h
  nlinarith [Real.pi_pos, h2, h]

/-! ### The matrix assembly driver `GenerateMat`

`GenerateMat(nx, ny, blockx, blocky, mat_type, mat_path, need_rhs, seed,
meshtype, space_p)` first executes `np.random.seed(seed)` and
`random.seed(seed)`, overwriting both process-wide generator states; then
builds the `PDE` over `[0,1]×[0,1]` (consuming numpy draws for
`coef1`/`coef2`), dispatches on `meshtype`, assembles
`A = stiffness + convection + mass` with the load vector `F`, applies the
Dirichlet boundary condition, prunes entries below `eps = 10^(-15)`,
writes the matrix, and returns `(row_num, col_num, A.nnz)`. Mesh/space
construction and assembly are performed by the external FEM library and
are abstracted as an arbitrary deterministic `assemble` argument. -/

/-- The two process-wide generator states: `np` for `numpy.random`, `py`
for python's `random` module. -/
structure RngState where
  np : ℕ
  py : ℕ
deriving DecidableEq, Repr

/-- One step of the generator model (a linear congruential generator
standing in for the Mersenne twister: only determinism of a draw as a
function of the state matters for the claims below). -/
def lcgStep (s : ℕ) : ℕ := (2862933555777941757 * s + 3037000493) % 2 ^ 64

/-- One entry of the external numpy draw `10**np.random.uniform(0.0,5.0,·)`:
a deterministic value computed from the numpy generator state, which
advances one step. (The `10**u` transform is absorbed into the abstract
draw; no settled claim depends on the sampled values themselves.) -/
def npSampleCoef (s : ℕ) : ℚ × ℕ :=
  (((lcgStep s % 2 ^ 53 : ℕ) : ℚ), lcgStep s)

/-- A row of `cols` sampled coefficient entries. -/
def sampleRow : ℕ → ℕ → List ℚ × ℕ
  | 0, s => ([], s)
  | n + 1, s =>
    ((npSampleCoef s).1 :: (sampleRow n (npSampleCoef s).2).1,
     (sampleRow n (npSampleCoef s).2).2)

/-- A sampled field of shape `rows × cols`, row-major as numpy fills a
`(rows, cols)` array. -/
def sampleField : ℕ → ℕ → ℕ → List (List ℚ) × ℕ
  | 0, _, s => ([], s)
  | r + 1, c, s =>
    ((sampleRow c s).1 :: (sampleField r c (sampleRow c s).2).1,
     (sampleField r c (sampleRow c s).2).2)

/-- The argument tuple of `GenerateMat` (the output-path arguments
`mat_type`, `mat_path`, `need_rhs` only affect the external writer and are
omitted). -/
structure GenArgs where
  nx : ℕ
  ny : ℕ
  blockx : ℕ
  blocky : ℕ
  seed : ℕ
  meshtype : String
  space_p : ℕ
deriving DecidableEq, Repr

/-- Which finite-element space the driver builds. -/
inductive SpaceKind where
  | lagrange
  | parametricLagrange
deriving DecidableEq, Repr

/-- How a run can fail. `unboundLocal` models Python's
`UnboundLocalError`: a local (`mesh`/`space`) read before assignment.
`validationError` models the explicit configuration/validation failure
the spec demands for an invalid `meshtype`. -/
inductive RunError where
  | unboundLocal
  | validationError
deriving DecidableEq, Repr

/-- The exported matrix: its explicitly stored values (`A.data` of the
CSR storage) and the returned `(row_num, col_num, nnz)` triple. -/
structure MatResult where
  entries : List ℚ
  row_num : ℕ
  col_num : ℕ
  nnz : ℕ
deriving DecidableEq, Repr

/-- The cleanup threshold `eps = 10**(-15)`, written in normalised
`num/den` form so that comparisons against it evaluate by kernel
reduction; `eps_eq` states the familiar form. -/
def eps : ℚ := Rat.mk' 1 (10 ^ 15) (by norm_num) (Nat.coprime_one_left _)

lemma eps_eq : eps = 1 / 10 ^ 15 := by
  have h := Rat.num_div_den eps
  rw [show eps.num = 1 from rfl] at h
  rw [show (eps.den : ℚ) = 10 ^ 15 by norm_num [eps]] at h
  simpa using h.symm

/-- `A.data[np.abs(A.data) < eps] = 0` followed by
`A.eliminate_zeros()` (which drops every explicitly stored zero). -/
def cleanup (data : List ℚ) : List ℚ :=
  (data.map fun v => if |v| < eps then (0:ℚ) else v).filter fun v => decide (v ≠ 0)

/-- Dispatch on `meshtype`: `'tri'` builds a `LagrangeFiniteElementSpace`,
`'quad'` a `ParametricLagrangeFiniteElementSpace`; any other tag takes
neither branch, leaving `mesh`/`space` unbound (`none`). -/
def spaceOf (meshtype : String) : Option SpaceKind :=
  if meshtype = "tri" then some SpaceKind.lagrange
  else if meshtype = "quad" then some SpaceKind.parametricLagrange
  else none

/-- Assembly, Dirichlet elimination (inside `assemble`) and the numerical
cleanup `A.data[np.abs(A.data) < eps] = 0; A.eliminate_zeros()`, followed
by the export of `(row_num, col_num, nnz)`. -/
def runAssembly (assemble : SpaceKind → PDE → GenArgs → List ℚ × ℕ × ℕ)
    (sp : SpaceKind) (pde : PDE) (args : GenArgs) : MatResult :=
  { entries := cleanup (assemble sp pde args).1
  , row_num := (assemble sp pde args).2.1
  , col_num := (assemble sp pde args).2.2
  , nnz := (cleanup (assemble sp pde args).1).length }

/-- The driver. `_g` is the state of the two process-wide generators
before the call; it is never read, because the first two statements of
the Python body (`np.random.seed(seed)`, `random.seed(seed)`) overwrite
both generators with states derived from `args.seed` alone, after which
`PDE.__init__` consumes numpy draws for the two coefficient fields. -/
def GenerateMat (assemble : SpaceKind → PDE → GenArgs → List ℚ × ℕ × ℕ)
    (args : GenArgs) (_g : RngState) : Except RunError MatResult × RngState :=
  let c1 := sampleField (args.blocky + 1) (args.blockx + 1) args.seed
  let c2 := sampleField (args.blocky + 1) (args.blockx + 1) c1.2
  let pde : PDE :=
    { x0 := 0, x1 := 1, y0 := 0, y1 := 1
    , xstep := (1 - 0) / (args.blockx : ℚ), ystep := (1 - 0) / (args.blocky : ℚ)
    , coef1 := c1.1, coef2 := c2.1 }
  let g' : RngState := { np := c2.2, py := args.seed }
  ((spaceOf args.meshtype).elim (Except.error RunError.unboundLocal)
      (fun sp => Except.ok (runAssembly assemble sp pde args)), g')

/-- Claim C3: for every argument tuple (seed included) and every
deterministic assembly backend, two calls of `GenerateMat` produce
identical results — the same output matrix, the same
`(row_num, col_num, nnz)` triple and the same final generator states —
regardless of the global random-generator states `g1`, `g2` before the
calls, because both process-wide generators are reseeded from `seed` at
the start of each run. -/
theorem GenerateMat_deterministic
    (assemble : SpaceKind → PDE → GenArgs → List ℚ × ℕ × ℕ)
    (args : GenArgs) (g1 g2 : RngState) :
    GenerateMat assemble args g1 = GenerateMat assemble args g2 := rfl

/-- Claim C4: with a `meshtype` other than `'tri'`/`'quad'`, the run
terminates with `UnboundLocalError` — the `if/elif` has no `else`, so
`space` is unbound when `space.function()` executes — which is a fatal
crash but NOT the configuration/validation error the claim requires. -/
theorem GenerateMat_invalid_meshtype
    (assemble : SpaceKind → PDE → GenArgs → List ℚ × ℕ × ℕ)
    (args : GenArgs) (g : RngState)
    (h1 : args.meshtype ≠ "tri") (h2 : args.meshtype ≠ "quad") :
    (GenerateMat assemble args g).1 = Except.error RunError.unboundLocal := by
  have hsp : spaceOf args.meshtype = none := by
    rw [spaceOf, if_neg h1, if_neg h2]
  simp only [GenerateMat, hsp, Option.elim_none]

lemma cleanup_mem_ge {data : List ℚ} {v : ℚ} (h : v ∈ cleanup data) : eps ≤ |v| := by
  unfold cleanup at h
  rcases List.mem_filter.mp h with ⟨hmem, hne⟩
  rcases List.mem_map.mp hmem with ⟨w, _, hw⟩
  by_cases hlt : |w| < eps
  · rw [if_pos hlt] at hw
    exact absurd hw.symm (by simpa using hne)
  · rw [if_neg hlt] at hw
    rw [← hw]
    exact not_lt.mp hlt

/-- Claim C9: whenever `GenerateMat` completes and returns an exported
matrix, every explicitly stored entry of that matrix has absolute value
at least `eps = 1e-15`: sub-threshold entries were zeroed and explicit
zeros dropped before the write. -/
theorem GenerateMat_no_tiny_entries
    (assemble : SpaceKind → PDE → GenArgs → List ℚ × ℕ × ℕ)
    (args : GenArgs) (g : RngState) (res : MatResult) (g' : RngState) (v : ℚ)
    (hrun : GenerateMat assemble args g = (Except.ok res, g'))
    (hv : v ∈ res.entries) : eps ≤ |v| := by
  simp only [GenerateMat, Prod.mk.injEq] at hrun
  obtain ⟨hfst, -⟩ := hrun
  rcases hsp : spaceOf args.meshtype with _ | sp
  · rw [hsp, Option.elim_none] at hfst
    exact absurd hfst (by simp)
  · rw [hsp, Option.elim_some, Except.ok.injEq] at hfst
    rw [← hfst] at hv
    exact cleanup_mem_ge hv

/-- A trivial stand-in assembly backend used by the witnesses: raw data
`[1, 0, -3]` in a 2×2 matrix. -/
def asmConst : SpaceKind → PDE → GenArgs → List ℚ × ℕ × ℕ :=
  fun _ _ _ => ([1, 0, -3], 2, 2)

/-- `GenerateMat(10, 10, 2, 2, seed=0, meshtype='hex', space_p=1)`. -/
def argsHex : GenArgs := ⟨10, 10, 2, 2, 0, "hex", 1⟩

/-- `GenerateMat(10, 10, 0, 0, seed=0, meshtype='quad', space_p=1)`. -/
def argsQuad : GenArgs := ⟨10, 10, 0, 0, 0, "quad", 1⟩

/-- Witness for C4 at the concrete invalid tag `'hex'`. -/
theorem GenerateMat_invalid_meshtype_witness :
    (GenerateMat asmConst argsHex ⟨0, 0⟩).1 = Except.error RunError.unboundLocal :=
  GenerateMat_invalid_meshtype asmConst argsHex ⟨0, 0⟩ (by decide) (by decide)

/-- Witness for C9: the concrete run over `argsQuad` with backend
`asmConst` exports exactly the entries `[1, -3]` (the `0` was dropped),
and the surviving entry `1` is at least `eps`. -/
theorem GenerateMat_no_tiny_entries_witness : eps ≤ |(1 : ℚ)| :=
  GenerateMat_no_tiny_entries asmConst argsQuad ⟨0, 0⟩
    ⟨[1, -3], 2, 2, 2⟩ ⟨lcgStep (lcgStep 0), 0⟩ 1 rfl (by decide)

/-! ### The random parameter generator `Para.AddParas` -/

/-- Modelled from the spec: `Parameter.DefineRandInt(name, a, b)` from
`PDEs/Parameters.py` (not among the provided sources) draws one integer
uniformly from the closed range `[a, b]` — the spec reads the call
`DefineRandInt('space_p',1,4)` as "choose space order p uniformly from
integers 1–4" and `DefineRandInt('nx',50,200)` as "nx∈[50,200]" — and
stores it under `name`; the draw consumes the seedable python `random`
source. Returns the drawn value and the advanced generator state. -/
def randIntDraw (a b s : ℕ) : ℕ × ℕ := (a + lcgStep s % (b + 1 - a), lcgStep s)

/-- Modelled from the spec: `Parameter.RandChoose(name, xs)` picks one
element of `xs` uniformly ("choose meshtype uniformly from
{triangular, quadrilateral}"), consuming the same random source. -/
def randChooseDraw (xs : List String) (s : ℕ) : String × ℕ :=
  (xs.getD (lcgStep s % xs.length) "", lcgStep s)

lemma randIntDraw_bounds (a b s : ℕ) (hab : a ≤ b) :
    a ≤ (randIntDraw a b s).1 ∧ (randIntDraw a b s).1 ≤ b := by
  unfold randIntDraw
  have h := Nat.mod_lt (lcgStep s) (y := b + 1 - a) (by omega)
  constructor
  · simp
  · simp
    omega

/-- One configuration assembled by `Para.AddParas` (the `self.para` dict
with its six keys flattened into a record). -/
structure Config where
  meshtype : String
  space_p : ℕ
  nx : ℕ
  ny : ℕ
  blockx : ℕ
  blocky : ℕ
deriving DecidableEq, Repr

/-- The first draw of `AddParas`: `RandChoose('meshtype', ['tri','quad'])`. -/
def mDraw (s : ℕ) : String × ℕ := randChooseDraw ["tri", "quad"] s

/-- The second draw of `AddParas`: `DefineRandInt('space_p', 1, 4)`. -/
def pDraw (s : ℕ) : ℕ × ℕ := randIntDraw 1 4 (mDraw s).2

/-- The `space_p` value `AddParas` draws from generator state `s`. -/
def spacePOf (s : ℕ) : ℕ := (pDraw s).1

/-- `Para.AddParas`: draw `meshtype`, then `space_p ∈ [1,4]`; for
`space_p = 1/2/3` draw `nx` and `blockx` from the order-dependent ranges
`[50,200]×[20,40]`, `[50,110]×[20,40]`, `[40,70]×[20,30]`, then
`CopyValue('nx','ny')`, `CopyValue('blockx','blocky')`. When
`space_p = 4` no branch defines `'nx'`, so `CopyValue('nx','ny')` hits a
missing key: the lookup failure is the `none` outcome, and no
configuration is produced. -/
def AddParas (s : ℕ) : Option Config × ℕ :=
  if (pDraw s).1 = 1 then
    (some ⟨(mDraw s).1, (pDraw s).1,
      (randIntDraw 50 200 (pDraw s).2).1, (randIntDraw 50 200 (pDraw s).2).1,
      (randIntDraw 20 40 (randIntDraw 50 200 (pDraw s).2).2).1,
      (randIntDraw 20 40 (randIntDraw 50 200 (pDraw s).2).2).1⟩,
     (randIntDraw 20 40 (randIntDraw 50 200 (pDraw s).2).2).2)
  else if (pDraw s).1 = 2 then
    (some ⟨(mDraw s).1, (pDraw s).1,
      (randIntDraw 50 110 (pDraw s).2).1, (randIntDraw 50 110 (pDraw s).2).1,
      (randIntDraw 20 40 (randIntDraw 50 110 (pDraw s).2).2).1,
      (randIntDraw 20 40 (randIntDraw 50 110 (pDraw s).2).2).1⟩,
     (randIntDraw 20 40 (randIntDraw 50 110 (pDraw s).2).2).2)
  else if (pDraw s).1 = 3 then
    (some ⟨(mDraw s).1, (pDraw s).1,
      (randIntDraw 40 70 (pDraw s).2).1, (randIntDraw 40 70 (pDraw s).2).1,
      (randIntDraw 20 30 (randIntDraw 40 70 (pDraw s).2).2).1,
      (randIntDraw 20 30 (randIntDraw 40 70 (pDraw s).2).2).1⟩,
     (randIntDraw 20 30 (randIntDraw 40 70 (pDraw s).2).2).2)
  else (none, (pDraw s).2)

/-- Claim C7: every configuration `AddParas` produces satisfies the
order-dependent ranges — `space_p = 1` gives `nx ∈ [50,200]`,
`blockx ∈ [20,40]`; `space_p = 2` gives `nx ∈ [50,110]`,
`blockx ∈ [20,40]`; `space_p = 3` gives `nx ∈ [40,70]`,
`blockx ∈ [20,30]` — and always `ny = nx`, `blocky = blockx`. -/
theorem AddParas_ranges (s s' : ℕ) (cfg : Config)
    (h : AddParas s = (some cfg, s')) :
    (cfg.space_p = 1 → 50 ≤ cfg.nx ∧ cfg.nx ≤ 200 ∧ 20 ≤ cfg.blockx ∧ cfg.blockx ≤ 40) ∧
    (cfg.space_p = 2 → 50 ≤ cfg.nx ∧ cfg.nx ≤ 110 ∧ 20 ≤ cfg.blockx ∧ cfg.blockx ≤ 40) ∧
    (cfg.space_p = 3 → 40 ≤ cfg.nx ∧ cfg.nx ≤ 70 ∧ 20 ≤ cfg.blockx ∧ cfg.blockx ≤ 30) ∧
    cfg.ny = cfg.nx ∧ cfg.blocky = cfg.blockx := by
  simp only [AddParas] at h
  split_ifs at h with h1 h2 h3
  · rw [Prod.mk.injEq, Option.some.injEq] at h
    obtain ⟨hcfg, -⟩ := h
    subst hcfg
    have hnx := randIntDraw_bounds 50 200 (pDraw s).2 (by norm_num)
    have hbx := randIntDraw_bounds 20 40 (randIntDraw 50 200 (pDraw s).2).2 (by norm_num)
    exact ⟨fun _ => ⟨hnx.1, hnx.2, hbx.1, hbx.2⟩,
      fun hp => absurd (show (pDraw s).1 = 2 from hp) (by omega),
      fun hp => absurd (show (pDraw s).1 = 3 from hp) (by omega),
      rfl, rfl⟩
  · rw [Prod.mk.injEq, Option.some.injEq] at h
    obtain ⟨hcfg, -⟩ := h
    subst hcfg
    have hnx := randIntDraw_bounds 50 110 (pDraw s).2 (by norm_num)
    have hbx := randIntDraw_bounds 20 40 (randIntDraw 50 110 (pDraw s).2).2 (by norm_num)
    exact ⟨fun hp => absurd (show (pDraw s).1 = 1 from hp) (by omega),
      fun _ => ⟨hnx.1, hnx.2, hbx.1, hbx.2⟩,
      fun hp => absurd (show (pDraw s).1 = 3 from hp) (by omega),
      rfl, rfl⟩
  · rw [Prod.mk.injEq, Option.some.injEq] at h
    obtain ⟨hcfg, -⟩ := h
    subst hcfg
    have hnx := randIntDraw_bounds 40 70 (pDraw s).2 (by norm_num)
    have hbx := randIntDraw_bounds 20 30 (randIntDraw 40 70 (pDraw s).2).2 (by norm_num)
    exact ⟨fun hp => absurd (show (pDraw s).1 = 1 from hp) (by omega),
      fun hp => absurd (show (pDraw s).1 = 2 from hp) (by omega),
      fun _ => ⟨hnx.1, hnx.2, hbx.1, hbx.2⟩,
      rfl, rfl⟩
  · exact absurd (congrArg Prod.fst h) (by simp)

/-- Claim C8: the generator draws `space_p` from the integers 1–4, every
value of that range is drawn for some generator state, and whenever it
draws `space_p = 4` the run produces no configuration: no `nx` branch
fires and the subsequent `CopyValue('nx','ny')` fails with a lookup
error. -/
theorem spaceP_uniform_p4_fails :
    (∀ s : ℕ, 1 ≤ spacePOf s ∧ spacePOf s ≤ 4 ∧
      (spacePOf s = 4 → (AddParas s).1 = none)) ∧
    (∀ k : ℕ, 1 ≤ k → k ≤ 4 → ∃ s : ℕ, spacePOf s = k) := by
  constructor
  · intro s
    have hp := randIntDraw_bounds 1 4 (mDraw s).2 (by norm_num)
    refine ⟨hp.1, hp.2, ?_⟩
    intro h4
    have h4' : (pDraw s).1 = 4 := h4
    simp only [AddParas]
    rw [if_neg (by omega), if_neg (by omega), if_neg (by omega)]
  · intro k hk1 hk4
    interval_cases k
    · exact ⟨2, by decide⟩
    · exact ⟨3, by decide⟩
    · exact ⟨0, by decide⟩
    · exact ⟨1, by decide⟩

/-- The configuration drawn from generator state 2 (a `space_p = 1` run). -/
def cfgSample : Config := ((AddParas 2).1).getD ⟨"", 0, 0, 0, 0, 0⟩

/-- Witness for C7 at generator state 2. -/
theorem AddParas_ranges_witness :
    cfgSample.ny = cfgSample.nx ∧ cfgSample.blocky = cfgSample.blockx :=
  (AddParas_ranges 2 (AddParas 2).2 cfgSample (by decide)).2.2.2

/-- Witness for C8: generator state 1 draws `space_p = 4` and the run
indeed produces no configuration. -/
theorem spaceP_uniform_p4_fails_witness :
    (AddParas 1).1 = none ∧ spacePOf 1 = 4 :=
  ⟨(spaceP_uniform_p4_fails.1 1).2.2 (by decide), by decide⟩

end OMDG
